import Mathlib

/-!
Shallow embedding of the conversation backend in `src/main.py`:
the chat handler (moderation, conversation assembly, best-effort
persistence) and the conversation create/list handlers. The document
store (`create_document` / `get_documents` from the external `database`
module) is modelled as a function parameter returning `Except`, whose
`error` case stands for the Python call raising with that message.
-/

namespace ResponsibleAIBackend

/-- Modelled from the spec: the `ChatMessage` record of the data model
(defined in the repository module `schemas`, which is not under `src/`):
a role, a content text, and optional model, tone and language fields. -/
structure ChatMessage where
  role : String
  content : String
  model : Option String
  tone : Option String
  language : Option String
  deriving DecidableEq

/-- Modelled from the spec: the `Conversation` record of the data model
(defined in the repository module `schemas`, which is not under `src/`):
a title and an ordered sequence of messages. The store-assigned id is
external to the record. -/
structure Conversation where
  title : String
  messages : List ChatMessage
  deriving DecidableEq

/-- The request body of `POST /api/chat` (`ChatRequest` in `src/main.py`). -/
structure ChatRequest where
  conversation_id : Option String
  message : String
  model : Option String
  tone : Option String
  language : Option String
  deriving DecidableEq

/-- The response body of `POST /api/chat` (`ChatResponse` in `src/main.py`). -/
structure ChatResponse where
  reply : String
  conversation_id : String
  deriving DecidableEq

/-- `fastapi.HTTPException`, reduced to the two fields the handlers set. -/
structure HTTPException where
  status_code : Nat
  detail : String
  deriving DecidableEq

/-- Python string truthiness fallback `a or b`: the empty string is falsy. -/
def pyOr (a b : String) : String := if a = "" then b else a

/-- Helper for Python substring membership: is `sub` a contiguous run of `l`? -/
def subHit (sub : List Char) : List Char → Bool
  | [] => List.isPrefixOf sub []
  | c :: t => List.isPrefixOf sub (c :: t) || subHit sub t

/-- Python substring membership `sub in s` on strings. -/
def pyIn (sub s : String) : Bool := subHit sub.data s.data

/-- Python slicing `s[:n]`, by code point. -/
def strTake (s : String) (n : Nat) : String := String.mk (s.data.take n)

/-- Python `s.strip()`: remove leading and trailing whitespace code points. -/
def pyStrip (s : String) : String :=
  String.mk (((s.data.dropWhile Char.isWhitespace).reverse.dropWhile Char.isWhitespace).reverse)

/-- Python `s.lower()`, modelled per code point (ASCII case mapping). -/
def pyLower (s : String) : String := String.mk (s.data.map Char.toLower)

/-- `user_text = (req.message or "").strip()` — `src/main.py` line 103. -/
def userText (req : ChatRequest) : String := pyStrip (pyOr req.message "")

/-- The static denylist `blocked` — `src/main.py` line 107. -/
def blocked : List String := ["illegal", "violence", "self-harm"]

/-- `any(word in user_text.lower() for word in blocked)` — line 108. -/
def isBlocked (user_text : String) : Bool :=
  blocked.any (fun word => pyIn word (pyLower user_text))

/-- The fixed refusal reply — `src/main.py` line 109. -/
def refusalReply : String :=
  "I can\x27t assist with that. If you\x27re in danger or feeling unsafe, please seek professional help or contact local authorities."

/-- The echo template reply — `src/main.py` line 111. -/
def echoReply (user_text : String) : String :=
  "You said: " ++ user_text ++ ". This is a demo assistant."

/-- The reply selected by the moderation branch — lines 107-111. -/
def safeReply (user_text : String) : String :=
  if isBlocked user_text then refusalReply else echoReply user_text

/-- The `Conversation` assembled by the chat handler — lines 113-117:
title is `user_text[:40] or "New Chat"`, messages are the user message
(with the request model/tone/language) followed by the assistant reply. -/
def chatConv (req : ChatRequest) : Conversation :=
  ⟨pyOr (strTake (userText req) 40) "New Chat",
    [⟨"user", userText req, req.model, req.tone, req.language⟩,
     ⟨"assistant", safeReply (userText req), Option.none, Option.none, Option.none⟩]⟩

/-- Lines 119-123: `create_document("conversation", conv)` inside
`try/except`; on any raise the id degrades to the sentinel `"ephemeral"`. -/
def convId (create_document : String → Conversation → Except String String)
    (req : ChatRequest) : String :=
  match create_document "conversation" (chatConv req) with
  | Except.ok cid => cid
  | Except.error _ => "ephemeral"

/-- The `POST /api/chat` handler `chat` — `src/main.py` lines 96-125. -/
def chat (create_document : String → Conversation → Except String String)
    (req : ChatRequest) : Except HTTPException ChatResponse :=
  if userText req = "" then
    Except.error ⟨400, "Message cannot be empty"⟩
  else
    Except.ok ⟨safeReply (userText req), convId create_document req⟩

/-- Values stored in a raw store record: Python `None`, a string, or an
opaque store value (e.g. an ObjectId) carrying its `str()` rendering. -/
inductive PyVal where
  | none
  | str (s : String)
  | obj (render : String)
  deriving DecidableEq

/-- A raw store record: a Python dict as an association list. -/
abbrev Doc := List (String × PyVal)

/-- Python `str(v)` on a stored value. -/
def pyStr : PyVal → String
  | PyVal.none => "None"
  | PyVal.str s => s
  | PyVal.obj r => r

/-- Python `k in d` on a dict. -/
def hasKey (d : Doc) (k : String) : Bool := d.any (fun p => p.1 == k)

/-- Python `d[k]` lookup, as an `Option`. -/
def getVal? (d : Doc) (k : String) : Option PyVal :=
  (d.find? (fun p => p.1 == k)).map (fun p => p.2)

/-- Effect of Python dict `d.pop(k)` on the record: the entry is removed. -/
def delKey (d : Doc) (k : String) : Doc := d.filter (fun p => !(p.1 == k))

/-- Python dict assignment `d[k] = v`: replace the entry if present,
otherwise append it. -/
def setKey : Doc → String → PyVal → Doc
  | [], k, v => [(k, v)]
  | p :: t, k, v => if p.1 == k then (k, v) :: t else p :: setKey t k v

/-- The per-record rewrite of `list_conversations` — `src/main.py` line 91:
`d["id"] = str(d.pop("_id")) if "_id" in d else None`. -/
def transformDoc (d : Doc) : Doc :=
  if hasKey d "_id" then
    setKey (delKey d "_id") "id" (PyVal.str (pyStr ((getVal? d "_id").getD PyVal.none)))
  else
    setKey d "id" PyVal.none

/-- The `POST /api/conversations` handler — `src/main.py` lines 77-83. -/
def create_conversation
    (create_document : String → Conversation → Except String String)
    (payload : Conversation) : Except HTTPException Doc :=
  match create_document "conversation" payload with
  | Except.ok conv_id => Except.ok [("id", PyVal.str conv_id)]
  | Except.error e => Except.error ⟨500, e⟩

/-- The `GET /api/conversations` handler — `src/main.py` lines 85-94. -/
def list_conversations
    (get_documents : String → Doc → Nat → Except String (List Doc))
    (limit : Nat) : Except HTTPException (List Doc) :=
  match get_documents "conversation" [] limit with
  | Except.ok docs => Except.ok (List.map transformDoc docs)
  | Except.error e => Except.error ⟨500, e⟩

/-! ### Basic lemmas about the embedded handlers -/

lemma userText_eq_trim (req : ChatRequest) : userText req = pyStrip req.message := by
  unfold userText pyOr
  by_cases h : req.message = ""
  · rw [if_pos h, h]
  · rw [if_neg h]

lemma strTake_ne_empty (s : String) (n : Nat) (hn : 0 < n) (hs : s ≠ "") :
    strTake s n ≠ "" := by
  intro hc
  cases s with
  | mk data =>
    cases data with
    | nil => exact hs rfl
    | cons a t =>
      obtain ⟨m, rfl⟩ : ∃ m, n = m + 1 :=
        ⟨n - 1, (Nat.succ_pred_eq_of_pos hn).symm⟩
      exact List.cons_ne_nil a (List.take m t) (congrArg String.data hc)

/-- A store stub whose create call always raises. -/
def demoFailStore : String → Conversation → Except String String :=
  fun _ _ => Except.error "db down"

/-- A store stub whose create call always succeeds with a fixed id. -/
def demoOkStore : String → Conversation → Except String String :=
  fun _ _ => Except.ok "abc123"

/-- The request of the spec example `submit_chat("I feel like hurting myself")`. -/
def reqHurt : ChatRequest :=
  ⟨Option.none, "I feel like hurting myself", Option.none, Option.none, Option.none⟩

/-- The request of the spec example `submit_chat("hello")`. -/
def reqHello : ChatRequest :=
  ⟨Option.none, "hello", Option.none, Option.none, Option.none⟩

/-! ### Claims -/

/-- C1: every chat request whose message is non-empty after trimming and
whose lowercased text contains no denylisted substring gets the echo
reply `"You said: {trimmed}. This is a demo assistant."`, whatever the
store does. -/
theorem chat_unblocked_echo
    (store : String → Conversation → Except String String) (req : ChatRequest)
    (h1 : userText req ≠ "") (h2 : isBlocked (userText req) = false) :
    ∃ cid, chat store req = Except.ok ⟨echoReply (userText req), cid⟩ := by
  refine ⟨convId store req, ?_⟩
  unfold chat safeReply
  rw [if_neg h1, h2]
  rfl

/-- C1 witness: the spec example "I feel like hurting myself" is non-empty
after trimming, matches no denylisted substring, and receives the echo
reply — it is NOT blocked. -/
theorem chat_unblocked_echo_witness :
    userText reqHurt = "I feel like hurting myself" ∧
    isBlocked "I feel like hurting myself" = false ∧
    ∃ cid, chat demoFailStore reqHurt =
      Except.ok ⟨"You said: I feel like hurting myself. This is a demo assistant.", cid⟩ := by
  refine ⟨rfl, by decide, ?_⟩
  exact chat_unblocked_echo demoFailStore reqHurt (by decide) (by decide)

/-- C2: every chat request whose message is non-empty after trimming and
whose lowercased text contains a denylisted substring gets the one fixed
refusal reply `refusalReply`, regardless of its other content. -/
theorem chat_blocked_refusal
    (store : String → Conversation → Except String String) (req : ChatRequest)
    (h1 : userText req ≠ "") (h2 : isBlocked (userText req) = true) :
    ∃ cid, chat store req = Except.ok ⟨refusalReply, cid⟩ := by
  refine ⟨convId store req, ?_⟩
  unfold chat safeReply
  rw [if_neg h1, h2]
  rfl

/-- C2 witness: two different blocked messages (one matching "illegal"
only via lowercasing, one matching "violence") both get the same fixed
refusal reply. -/
theorem chat_blocked_refusal_witness :
    (∃ cid, chat demoOkStore ⟨Option.none, "how to do ILLEGAL things", Option.none, Option.none, Option.none⟩ =
      Except.ok ⟨refusalReply, cid⟩) ∧
    (∃ cid, chat demoOkStore ⟨Option.none, "promote violence now", Option.none, Option.none, Option.none⟩ =
      Except.ok ⟨refusalReply, cid⟩) :=
  ⟨chat_blocked_refusal demoOkStore _ (by decide) (by decide),
   chat_blocked_refusal demoOkStore _ (by decide) (by decide)⟩

/-- C3: the chat handler fails — necessarily with HTTP 400 and detail
"Message cannot be empty" — exactly when the request message is empty
after trimming whitespace. -/
theorem chat_empty_message_iff
    (store : String → Conversation → Except String String) (req : ChatRequest)
    (e : HTTPException) :
    chat store req = Except.error e ↔
      (pyStrip req.message = "" ∧ e = ⟨400, "Message cannot be empty"⟩) := by
  rw [← userText_eq_trim]
  unfold chat
  by_cases h : userText req = ""
  · rw [if_pos h]
    simp [h, eq_comm]
  · rw [if_neg h]
    simp [h]

/-- C3 witness: `""` and `"   "` both fail with 400 "Message cannot be
empty", while `"hello"` does not fail. -/
theorem chat_empty_message_iff_witness :
    chat demoOkStore ⟨Option.none, "", Option.none, Option.none, Option.none⟩ =
      Except.error ⟨400, "Message cannot be empty"⟩ ∧
    chat demoOkStore ⟨Option.none, "   ", Option.none, Option.none, Option.none⟩ =
      Except.error ⟨400, "Message cannot be empty"⟩ ∧
    ∀ e, chat demoOkStore reqHello ≠ Except.error e := by
  refine ⟨?_, ?_, ?_⟩
  · exact (chat_empty_message_iff demoOkStore _ _).mpr ⟨by decide, rfl⟩
  · exact (chat_empty_message_iff demoOkStore _ _).mpr ⟨by decide, rfl⟩
  · intro e hc
    exact absurd ((chat_empty_message_iff demoOkStore reqHello e).mp hc).1 (by decide)

/-- C9: the chat handler never reads the request's `conversation_id`
field — changing it alone leaves the whole response unchanged. -/
theorem chat_ignores_conversation_id
    (store : String → Conversation → Except String String) (req : ChatRequest)
    (cid : Option String) :
    chat store { req with conversation_id := cid } = chat store req := by
  cases req
  rfl

/-- C4: on an accepted message, a raising store call does not fail the
chat operation — the computed reply is still returned with the sentinel
conversation id "ephemeral" — while a successful store call yields the
store-generated id. -/
theorem chat_persistence_fallback
    (store : String → Conversation → Except String String) (req : ChatRequest)
    (h1 : userText req ≠ "") :
    ((∃ e, store "conversation" (chatConv req) = Except.error e) →
      chat store req = Except.ok ⟨safeReply (userText req), "ephemeral"⟩) ∧
    (∀ cid, store "conversation" (chatConv req) = Except.ok cid →
      chat store req = Except.ok ⟨safeReply (userText req), cid⟩) := by
  constructor
  · rintro ⟨e, he⟩
    unfold chat convId
    rw [if_neg h1, he]
  · intro cid hc
    unfold chat convId
    rw [if_neg h1, hc]

/-- C4 witness: with an unavailable store, `submit_chat("hello")` returns
the echo reply with conversation_id "ephemeral"; with a working store it
returns the store-generated id "abc123". -/
theorem chat_persistence_fallback_witness :
    chat demoFailStore reqHello =
      Except.ok ⟨"You said: hello. This is a demo assistant.", "ephemeral"⟩ ∧
    chat demoOkStore reqHello =
      Except.ok ⟨"You said: hello. This is a demo assistant.", "abc123"⟩ := by
  constructor
  · have h := (chat_persistence_fallback demoFailStore reqHello (by decide)).1
      ⟨"db down", rfl⟩
    exact h
  · have h := (chat_persistence_fallback demoOkStore reqHello (by decide)).2
      "abc123" rfl
    exact h

/-- C5: for every accepted request the assembled conversation's title is
the first 40 code points of the trimmed message, and that truncation is
never empty, so the "New Chat" fallback present in the construction is
unreachable through the chat flow. -/
theorem chat_title_first40 (req : ChatRequest) (h : userText req ≠ "") :
    (chatConv req).title = strTake (userText req) 40 ∧
    strTake (userText req) 40 ≠ "" := by
  have hne : strTake (userText req) 40 ≠ "" :=
    strTake_ne_empty (userText req) 40 (by decide) h
  refine ⟨?_, hne⟩
  unfold chatConv pyOr
  rw [if_neg hne]

/-- C5 witness: for the message "hello" the stored title is "hello" (the
40-code-point truncation, which is non-empty). -/
theorem chat_title_first40_witness :
    (chatConv reqHello).title = "hello" ∧ strTake (userText reqHello) 40 ≠ "" := by
  have h := chat_title_first40 reqHello (by decide)
  exact ⟨h.1.trans (by decide), h.2⟩

/-- C6: the conversation assembled by the chat handler always holds
exactly two messages in order — the user message carrying the request's
model, tone and language, then the assistant reply — so it has at least
one message, whether or not the message was blocked. -/
theorem chat_conversation_two_messages (req : ChatRequest) :
    (chatConv req).messages =
      [⟨"user", userText req, req.model, req.tone, req.language⟩,
       ⟨"assistant", safeReply (userText req), Option.none, Option.none, Option.none⟩] ∧
    (chatConv req).messages.length = 2 ∧
    1 ≤ (chatConv req).messages.length :=
  ⟨rfl, rfl, by simp [chatConv]⟩

/-! ### Dict lemmas for the list-conversations record rewrite -/

lemma getVal?_setKey_self (d : Doc) (k : String) (v : PyVal) :
    getVal? (setKey d k v) k = some v := by
  induction d with
  | nil => simp [setKey, getVal?]
  | cons p t ih =>
    by_cases hp : (p.1 == k) = true
    · simp [setKey, hp, getVal?]
    · have hp' : (p.1 == k) = false := by simpa using hp
      simp only [getVal?] at ih
      simp [setKey, hp', getVal?, ih]

lemma hasKey_setKey_self (d : Doc) (k : String) (v : PyVal) :
    hasKey (setKey d k v) k = true := by
  induction d with
  | nil => simp [setKey, hasKey]
  | cons p t ih =>
    by_cases hp : (p.1 == k) = true
    · simp [setKey, hp, hasKey]
    · have hp' : (p.1 == k) = false := by simpa using hp
      simp only [hasKey] at ih
      simp [setKey, hp', hasKey, ih]

lemma hasKey_setKey_ne (d : Doc) (k k2 : String) (v : PyVal) (h : k ≠ k2) :
    hasKey (setKey d k v) k2 = hasKey d k2 := by
  have hkk : (k == k2) = false := beq_eq_false_iff_ne.mpr h
  induction d with
  | nil => simp [setKey, hasKey, hkk]
  | cons p t ih =>
    by_cases hp : (p.1 == k) = true
    · have hpk : p.1 = k := eq_of_beq hp
      simp [setKey, hp, hasKey, hpk]
    · have hp' : (p.1 == k) = false := by simpa using hp
      simp only [hasKey] at ih
      simp [setKey, hp', hasKey, ih]

lemma hasKey_delKey_self (d : Doc) (k : String) :
    hasKey (delKey d k) k = false := by
  induction d with
  | nil => rfl
  | cons p t ih =>
    by_cases hp : (p.1 == k) = true
    · simp only [delKey, hasKey] at ih
      simp [delKey, hasKey, List.filter_cons, hp, ih]
    · have hp' : (p.1 == k) = false := by simpa using hp
      simp only [delKey, hasKey] at ih
      simp [delKey, hasKey, List.filter_cons, hp', ih]

lemma transformDoc_hasKey_id (d : Doc) : hasKey (transformDoc d) "id" = true := by
  unfold transformDoc
  split
  · exact hasKey_setKey_self ..
  · exact hasKey_setKey_self ..

lemma transformDoc_no_raw_id (d : Doc) : hasKey (transformDoc d) "_id" = false := by
  unfold transformDoc
  split
  · rw [hasKey_setKey_ne _ _ _ _ (by decide)]
    exact hasKey_delKey_self d "_id"
  · rename_i h
    rw [hasKey_setKey_ne _ _ _ _ (by decide)]
    simpa using h

lemma transformDoc_id_present (d : Doc) (h : hasKey d "_id" = true) :
    getVal? (transformDoc d) "id" =
      some (PyVal.str (pyStr ((getVal? d "_id").getD PyVal.none))) := by
  unfold transformDoc
  rw [if_pos h]
  exact getVal?_setKey_self ..

lemma transformDoc_id_absent (d : Doc) (h : hasKey d "_id" = false) :
    getVal? (transformDoc d) "id" = some PyVal.none := by
  unfold transformDoc
  rw [if_neg (by simp [h])]
  exact getVal?_setKey_self ..

/-- A store stub whose list call always raises. -/
def demoFailGetDocs : String → Doc → Nat → Except String (List Doc) :=
  fun _ _ _ => Except.error "db down"

/-- Two raw records with store-assigned `_id` values. -/
def demoDocs : List Doc :=
  [[("_id", PyVal.obj "64f1"), ("title", PyVal.str "a")],
   [("_id", PyVal.obj "64f2"), ("title", PyVal.str "b")]]

/-- A store stub whose list call returns `demoDocs`. -/
def demoGetDocs : String → Doc → Nat → Except String (List Doc) :=
  fun _ _ _ => Except.ok demoDocs

/-- A raw record that lacks the `_id` field. -/
def demoNoIdDoc : Doc := [("title", PyVal.str "t")]

/-- A store stub whose list call returns only `demoNoIdDoc`. -/
def demoGetDocsNoId : String → Doc → Nat → Except String (List Doc) :=
  fun _ _ _ => Except.ok [demoNoIdDoc]

/-- A conversation payload used to exercise the create handler. -/
def demoConv : Conversation := ⟨"t", []⟩

/-- C7: when the store returns at most `limit` documents, the list
handler returns at most `limit` records, each carrying an `id` key and no
raw `_id` key, and each record that had a store-assigned `_id` gets `id`
bound to its string conversion. -/
theorem list_conversations_limit_and_id
    (get_documents : String → Doc → Nat → Except String (List Doc))
    (limit : Nat) (docs : List Doc)
    (hok : get_documents "conversation" [] limit = Except.ok docs)
    (hlen : docs.length ≤ limit) :
    ∃ out, list_conversations get_documents limit = Except.ok out ∧
      out = List.map transformDoc docs ∧
      out.length ≤ limit ∧
      (∀ o ∈ out, hasKey o "id" = true ∧ hasKey o "_id" = false) ∧
      (∀ d ∈ docs, hasKey d "_id" = true →
        getVal? (transformDoc d) "id" =
          some (PyVal.str (pyStr ((getVal? d "_id").getD PyVal.none)))) := by
  refine ⟨List.map transformDoc docs, ?_, rfl, ?_, ?_, ?_⟩
  · unfold list_conversations
    rw [hok]
  · simpa using hlen
  · intro o ho
    obtain ⟨d, _, rfl⟩ := List.mem_map.mp ho
    exact ⟨transformDoc_hasKey_id d, transformDoc_no_raw_id d⟩
  · intro d _ h
    exact transformDoc_id_present d h

/-- C7 witness: listing with limit 2 over a store holding two records
returns two records, each with an `id` key and no `_id` key, the `id`
values being the stringified store identifiers. -/
theorem list_conversations_limit_and_id_witness :
    ∃ out, list_conversations demoGetDocs 2 = Except.ok out ∧
      out = List.map transformDoc demoDocs ∧
      out.length ≤ 2 ∧
      (∀ o ∈ out, hasKey o "id" = true ∧ hasKey o "_id" = false) ∧
      (∀ d ∈ demoDocs, hasKey d "_id" = true →
        getVal? (transformDoc d) "id" =
          some (PyVal.str (pyStr ((getVal? d "_id").getD PyVal.none)))) :=
  list_conversations_limit_and_id demoGetDocs 2 demoDocs rfl (by decide)

/-- C8: the create and list handlers fail with HTTP 500 carrying the
store's error message exactly when the underlying store call raises;
otherwise create returns the store-generated id and list returns the
rewritten records. -/
theorem storage_error_propagation
    (create_document : String → Conversation → Except String String)
    (get_documents : String → Doc → Nat → Except String (List Doc))
    (payload : Conversation) (limit : Nat) :
    (∀ e, create_document "conversation" payload = Except.error e →
      create_conversation create_document payload = Except.error ⟨500, e⟩) ∧
    (∀ cid, create_document "conversation" payload = Except.ok cid →
      create_conversation create_document payload = Except.ok [("id", PyVal.str cid)]) ∧
    (∀ e, get_documents "conversation" [] limit = Except.error e →
      list_conversations get_documents limit = Except.error ⟨500, e⟩) ∧
    (∀ docs, get_documents "conversation" [] limit = Except.ok docs →
      list_conversations get_documents limit = Except.ok (List.map transformDoc docs)) := by
  refine ⟨?_, ?_, ?_, ?_⟩
  · intro e he
    unfold create_conversation
    rw [he]
  · intro cid hc
    unfold create_conversation
    rw [hc]
  · intro e he
    unfold list_conversations
    rw [he]
  · intro docs hd
    unfold list_conversations
    rw [hd]

/-- C8 witness: a raising store call turns into a 500 with the forwarded
message for both handlers; succeeding store calls return the id record
and the rewritten document list. -/
theorem storage_error_propagation_witness :
    create_conversation demoFailStore demoConv = Except.error ⟨500, "db down"⟩ ∧
    create_conversation demoOkStore demoConv = Except.ok [("id", PyVal.str "abc123")] ∧
    list_conversations demoFailGetDocs 2 = Except.error ⟨500, "db down"⟩ ∧
    list_conversations demoGetDocs 2 = Except.ok (List.map transformDoc demoDocs) :=
  ⟨(storage_error_propagation demoFailStore demoFailGetDocs demoConv 2).1 "db down" rfl,
   (storage_error_propagation demoOkStore demoGetDocs demoConv 2).2.1 "abc123" rfl,
   (storage_error_propagation demoOkStore demoFailGetDocs demoConv 2).2.2.1 "db down" rfl,
   (storage_error_propagation demoOkStore demoGetDocs demoConv 2).2.2.2 demoDocs rfl⟩

/-- C10: a raw record without an `_id` field is still returned by the
list handler — the output has the same length as the store's result and
contains the rewritten record — and its `id` field is set to `None`. -/
theorem list_missing_id_null (d : Doc) (hmiss : hasKey d "_id" = false)
    (get_documents : String → Doc → Nat → Except String (List Doc))
    (limit : Nat) (docs : List Doc)
    (hok : get_documents "conversation" [] limit = Except.ok docs)
    (hd : d ∈ docs) :
    getVal? (transformDoc d) "id" = some PyVal.none ∧
    ∃ out, list_conversations get_documents limit = Except.ok out ∧
      out.length = docs.length ∧ transformDoc d ∈ out := by
  refine ⟨transformDoc_id_absent d hmiss, List.map transformDoc docs, ?_, by simp,
    List.mem_map_of_mem transformDoc hd⟩
  unfold list_conversations
  rw [hok]

/-- C10 witness: a store record holding only a title comes back from the
list handler with an `id` key bound to `None`. -/
theorem list_missing_id_null_witness :
    getVal? (transformDoc demoNoIdDoc) "id" = some PyVal.none ∧
    ∃ out, list_conversations demoGetDocsNoId 20 = Except.ok out ∧
      out.length = [demoNoIdDoc].length ∧ transformDoc demoNoIdDoc ∈ out :=
  list_missing_id_null demoNoIdDoc (by decide) demoGetDocsNoId 20 [demoNoIdDoc] rfl
    (by decide)

end ResponsibleAIBackend
